import Mathlib

set_option maxHeartbeats 1000000

namespace UserController

/-! Shallow embedding of the user controller (getProfile, updateProfile,
changePassword, deactivateMe, findUsersByEmails, getAllUsers,
updateUserById, deleteUserById, getUserById) over an explicit document
store.  Mongoose queries become list operations; request bodies become
records of optional fields, where `none` models an absent JSON key; the
caller `req.user` is passed explicitly; `new Date(x)` parsing is modelled
by `Option Int` (`none` for an invalid date). -/

/-- JSON-like values: the shape of response bodies. -/
inductive JVal where
  | str : String → JVal
  | num : Int → JVal
  | boolean : Bool → JVal
  | null : JVal
  | arr : List JVal → JVal
  | obj : List (String × JVal) → JVal

/-- The keys of a JSON object (empty for non-objects). -/
def objKeys : JVal → List String
  | .obj l => l.map Prod.fst
  | _ => []

/-- The availability sub-document of a user. -/
structure Availability where
  status : String
  willingToJoin : Bool
deriving DecidableEq, Repr

/-- The expectedWorkDuration sub-document: startDate and endDate as date values. -/
structure Ewd where
  startDate : Int
  endDate : Int
deriving DecidableEq, Repr

/-- A user document, with the fields the controller touches. -/
structure User where
  _id : Nat
  fullname : Option String
  username : Option String
  email : String
  password : Option String
  passwordResetToken : Option String
  passwordResetExpires : Option Nat
  passwordChangedAt : Option Nat
  role : String
  avatar : Option String
  skills : List String
  about : Option String
  experience : Option String
  yearOfExperience : Nat
  availability : Option Availability
  expectedWorkDuration : Ewd
  googleId : Option String
  isDeleted : Bool
  deletedAt : Option Nat
  createdAt : Nat
deriving DecidableEq, Repr

/-- The document store: the user collection and the Skill collection
(a Skill document is identified by its value string). -/
structure DB where
  users : List User
  skills : List String
deriving DecidableEq, Repr

/-- A handler outcome: `err` is next(new AppError(message, code)) or a direct
error JSON with that status, `ok` is res.status(code).json(payload). -/
inductive Res (α : Type) where
  | err : Nat → String → Res α
  | ok : Nat → α → Res α
deriving DecidableEq, Repr

/-- The HTTP status of an outcome. -/
def Res.statusOf {α : Type} : Res α → Nat
  | .err c _ => c
  | .ok c _ => c

/-- JavaScript truthiness of an optional string field: an absent field or
the empty string is falsy. -/
def truthyStr : Option String → Bool
  | some s => !(s == "")
  | none => false

/-- JavaScript `o || null` on an optional string: empty strings collapse to null. -/
def jsOrNull : Option String → Option String
  | some s => if s == "" then none else some s
  | none => none

/-- The mongoose projection select -password -passwordResetToken -passwordResetExpires. -/
def selectSafe (u : User) : User :=
  { u with password := none, passwordResetToken := none, passwordResetExpires := none }

/-- The default availability object used by the response fallbacks. -/
def defaultAvailability : Availability :=
  { status := "available", willingToJoin := true }

/-- The sanitized profile object returned by getProfile. -/
structure ProfileView where
  id : Nat
  fullname : String
  username : String
  email : String
  role : String
  avatar : Option String
  skills : List String
  about : String
  experience : String
  yearOfExperience : Nat
  availability : Availability
  expectedWorkDuration : Ewd
  hasPassword : Bool
  googleId : Option String
deriving DecidableEq, Repr

/-- getProfile: look up req.user._id with the safe projection and return the
sanitized profile; 404 when the record is missing. -/
def getProfile (reqUser : User) (db : DB) : Res ProfileView :=
  match db.users.find? (fun u => u._id == reqUser._id) with
  | none => Res.err 404 "User not found."
  | some found =>
    let user := selectSafe found
    let hasPassword :=
      match user.password with
      | some p => !(p.trim == "")
      | none => false
    Res.ok 200
      { id := user._id
        fullname := user.fullname.getD ""
        username := user.username.getD ""
        email := user.email
        role := user.role
        avatar := jsOrNull user.avatar
        skills := user.skills
        about := user.about.getD ""
        experience := user.experience.getD ""
        yearOfExperience := user.yearOfExperience
        availability := user.availability.getD defaultAvailability
        expectedWorkDuration :=
          { startDate := user.expectedWorkDuration.startDate
            endDate := user.expectedWorkDuration.endDate }
        hasPassword := hasPassword
        googleId := user.googleId }

/-- A skills field of an update body: an array of values, or a non-array value. -/
inductive SkillsField where
  | values : List String → SkillsField
  | notArray : SkillsField
deriving DecidableEq, Repr

/-- The expectedWorkDuration field of an update body, each date already run
through `new Date` parsing (`none` = invalid or missing). -/
structure EwdBody where
  startDate : Option Int
  endDate : Option Int
deriving DecidableEq, Repr

/-- An updateProfile request body; `none` is an absent key.  Keys outside
this record and the allow-list are dropped by the handler's filter and
need no representation. -/
structure UpdateBody where
  password : Option String
  role : Option String
  fullname : Option String
  username : Option String
  email : Option String
  avatar : Option String
  skills : Option SkillsField
  about : Option String
  experience : Option String
  yearOfExperience : Option Nat
  availability : Option Availability
  expectedWorkDuration : Option EwdBody
deriving DecidableEq, Repr

/-- An all-absent update body, for building concrete requests. -/
def emptyBody : UpdateBody :=
  { password := none, role := none, fullname := none, username := none
    email := none, avatar := none, skills := none, about := none
    experience := none, yearOfExperience := none, availability := none
    expectedWorkDuration := none }

/-- A present body field overrides the stored optional field. -/
def setIf {α : Type} (new : Option α) (old : Option α) : Option α :=
  match new with
  | some v => some v
  | none => old

/-- findByIdAndUpdate with the filtered updateProfile body: each allow-listed
present field is written, everything else is kept. -/
def applyProfileUpdate (b : UpdateBody) (u : User) : User :=
  { u with
    fullname := setIf b.fullname u.fullname
    username := setIf b.username u.username
    email := b.email.getD u.email
    avatar := setIf b.avatar u.avatar
    skills :=
      match b.skills with
      | some (SkillsField.values vs) => vs
      | _ => u.skills
    about := setIf b.about u.about
    experience := setIf b.experience u.experience
    yearOfExperience := b.yearOfExperience.getD u.yearOfExperience
    availability := setIf b.availability u.availability
    expectedWorkDuration :=
      match b.expectedWorkDuration with
      | some ewd =>
        match ewd.startDate, ewd.endDate with
        | some s, some e => { startDate := s, endDate := e }
        | _, _ => u.expectedWorkDuration
      | none => u.expectedWorkDuration }

/-- The sanitized profile object returned by updateProfile (same shape as
getProfile minus hasPassword and googleId). -/
structure UpdatedView where
  id : Nat
  fullname : String
  username : String
  email : String
  role : String
  avatar : Option String
  skills : List String
  about : String
  experience : String
  yearOfExperience : Nat
  availability : Availability
  expectedWorkDuration : Ewd
deriving DecidableEq, Repr

/-- Step 4 of updateProfile: perform the single document update and answer
with the updated sanitized profile; 404 when the record is missing. -/
def updateProfileApply (reqUser : User) (body : UpdateBody) (db : DB) :
    Res UpdatedView × DB :=
  match db.users.find? (fun u => u._id == reqUser._id) with
  | none => (Res.err 404 "User not found.", db)
  | some u =>
    let updated := selectSafe (applyProfileUpdate body u)
    let newDb : DB :=
      { db with
        users := db.users.map
          (fun v => if v._id == reqUser._id then applyProfileUpdate body v else v) }
    (Res.ok 200
      { id := updated._id
        fullname := updated.fullname.getD ""
        username := updated.username.getD ""
        email := updated.email
        role := updated.role
        avatar := jsOrNull updated.avatar
        skills := updated.skills
        about := updated.about.getD ""
        experience := updated.experience.getD ""
        yearOfExperience := updated.yearOfExperience
        availability := updated.availability.getD defaultAvailability
        expectedWorkDuration :=
          { startDate := updated.expectedWorkDuration.startDate
            endDate := updated.expectedWorkDuration.endDate } }, newDb)

/-- Step 3 of updateProfile: validate expectedWorkDuration date parsing and
ordering, then perform the update. -/
def updateProfileDates (reqUser : User) (body : UpdateBody) (db : DB) :
    Res UpdatedView × DB :=
  match body.expectedWorkDuration with
  | some ewd =>
    match ewd.startDate, ewd.endDate with
    | some s, some e =>
      if s > e then
        (Res.err 400 "Start date must be before or equal to end date.", db)
      else updateProfileApply reqUser body db
    | _, _ => (Res.err 400 "Invalid start or end date.", db)
  | none => updateProfileApply reqUser body db

/-- updateProfile: reject truthy password/role, filter to the allow-list,
validate skills against the Skill collection, validate the work-duration
dates, then update the document. -/
def updateProfile (reqUser : User) (body : UpdateBody) (db : DB) :
    Res UpdatedView × DB :=
  if truthyStr body.password || truthyStr body.role then
    (Res.err 400 "This route is not for password or role updates.", db)
  else
    match body.skills with
    | some SkillsField.notArray =>
      (Res.err 400 "Skills must be an array of skill values.", db)
    | some (SkillsField.values vals) =>
      match vals.find? (fun v => !(db.skills.contains v)) with
      | some bad => (Res.err 404 ("Skill not found: " ++ bad), db)
      | none => updateProfileDates reqUser body db
    | none => updateProfileDates reqUser body db

/-- The JWT sign configuration from the environment. -/
structure Env where
  jwtSecret : String
  jwtExpiresIn : String
deriving DecidableEq, Repr

/-- A signed token. Modelled from the spec: the jsonwebtoken sign call
(library code, not under src) issues a token carrying the user id, signed
with the configured secret and expiry. -/
structure Token where
  payloadId : Nat
  secret : String
  expiresIn : String
deriving DecidableEq, Repr

/-- Modelled from the spec: jsonwebtoken.sign on the payload of the user id. -/
def jwtSign (uid : Nat) (env : Env) : Token :=
  { payloadId := uid, secret := env.jwtSecret, expiresIn := env.jwtExpiresIn }

/-- Modelled from the spec: User.correctPassword (an instance method of the
user model, whose file is not under src) verifies the candidate password
against the stored one. -/
def correctPassword (candidate : String) (stored : Option String) : Bool :=
  stored == some candidate

/-- A changePassword request body; `none` is an absent key. -/
structure CPBody where
  currentPassword : Option String
  newPassword : Option String
  passwordConfirm : Option String
deriving DecidableEq, Repr

/-- changePassword: require the three fields (JS truthiness), verify the
current password, reject mismatched confirmation, then store the new
password, set passwordChangedAt and answer with a fresh token. -/
def changePassword (reqUser : User) (body : CPBody) (env : Env) (now : Nat)
    (db : DB) : Res Token × DB :=
  if !truthyStr body.currentPassword || !truthyStr body.newPassword
      || !truthyStr body.passwordConfirm then
    (Res.err 400 "All three fields are required.", db)
  else
    match db.users.find? (fun u => u._id == reqUser._id) with
    | none => (Res.err 404 "User not found.", db)
    | some user =>
      if !correctPassword (body.currentPassword.getD "") user.password then
        (Res.err 401 "Your current password is incorrect.", db)
      else if !(body.newPassword == body.passwordConfirm) then
        (Res.err 400 "New passwords do not match.", db)
      else
        let newDb : DB :=
          { db with
            users := db.users.map
              (fun v =>
                if v._id == reqUser._id then
                  { v with password := body.newPassword, passwordChangedAt := some now }
                else v) }
        (Res.ok 200 (jwtSign user._id env), newDb)

/-- deactivateMe: soft-delete the caller (isDeleted, deletedAt) and answer 204. -/
def deactivateMe (reqUser : User) (now : Nat) (db : DB) : Res Unit × DB :=
  let newDb : DB :=
    { db with
      users := db.users.map
        (fun v =>
          if v._id == reqUser._id then { v with isDeleted := true, deletedAt := some now }
          else v) }
  (Res.ok 204 (), newDb)

/-- The email syntax test of the anchored regex: no whitespace anywhere,
exactly one at-sign, a nonempty local part, and a dot strictly inside the
nonempty domain part. -/
def emailValid (s : String) : Bool :=
  let cs := s.toList
  cs.all (fun c => !c.isWhitespace)
    && ((cs.filter (fun c => c == '@')).length == 1)
    && !(cs.takeWhile (fun c => !(c == '@'))).isEmpty
    && ((((cs.dropWhile (fun c => !(c == '@'))).drop 1).drop 1).dropLast.contains '.')

/-- One element of foundUsers: the projected found user. -/
structure FoundUser where
  userId : Nat
  email : String
  username : Option String
  fullname : String
deriving DecidableEq, Repr

/-- The success payload of findUsersByEmails. -/
structure FindUsersData where
  foundUsers : List FoundUser
  notFoundEmails : List String
deriving DecidableEq, Repr

/-- The outcome of findUsersByEmails: a direct 400 error JSON, or the
200 partition of the input emails. -/
inductive FindRes where
  | badRequest : String → FindRes
  | ok : FindUsersData → FindRes
deriving DecidableEq, Repr

/-- findUsersByEmails: require a nonempty array of syntactically valid
emails, reject self-invitation, then partition the emails into found
(a non-deleted user carries the email) and not-found. -/
def findUsersByEmails (reqUser : User) (emails : Option (List String))
    (db : DB) : FindRes :=
  match emails with
  | none => FindRes.badRequest "Email list is required and must be an array."
  | some es =>
    if es.isEmpty then
      FindRes.badRequest "Email list is required and must be an array."
    else
      let invalidEmails := es.filter (fun e => !emailValid e)
      if !invalidEmails.isEmpty then
        FindRes.badRequest ("Email is invalid: " ++ String.intercalate ", " invalidEmails)
      else if es.contains reqUser.email then
        FindRes.badRequest "You cannot invite yourself."
      else
        let users := db.users.filter (fun u => es.contains u.email && !u.isDeleted)
        let foundEmails := users.map (fun u => u.email)
        let notFoundEmails := es.filter (fun e => !foundEmails.contains e)
        FindRes.ok
          { foundUsers := users.map
              (fun u =>
                { userId := u._id, email := u.email, username := u.username
                  fullname := u.fullname.getD "" })
            notFoundEmails := notFoundEmails }

/-- One element of the getAllUsers listing. -/
structure AdminListView where
  id : Nat
  fullname : String
  username : String
  email : String
  role : String
  skills : List String
deriving DecidableEq, Repr

/-- getAllUsers: admin-gated listing of the non-deleted users under the safe
projection. -/
def getAllUsers (reqUser : User) (db : DB) : Res (List AdminListView) :=
  if !(reqUser.role == "adminSystem") then Res.err 403 "Admin access required."
  else
    let users := (db.users.filter (fun u => !u.isDeleted)).map selectSafe
    Res.ok 200
      (users.map
        (fun u =>
          { id := u._id, fullname := u.fullname.getD "", username := u.username.getD ""
            email := u.email, role := u.role, skills := u.skills }))

/-- An updateUserById request body filtered to its allow-list role/isDeleted. -/
structure AdminUpdateBody where
  role : Option String
  isDeleted : Option Bool
deriving DecidableEq, Repr

/-- findByIdAndUpdate with the filtered admin body. -/
def applyAdminUpdate (b : AdminUpdateBody) (u : User) : User :=
  { u with role := b.role.getD u.role, isDeleted := b.isDeleted.getD u.isDeleted }

/-- The user object returned by updateUserById. -/
structure AdminUserView where
  id : Nat
  fullname : String
  username : String
  email : String
  role : String
  isDeleted : Bool
  skills : List String
deriving DecidableEq, Repr

/-- updateUserById: admin-gated; rejects a malformed id, the self-demotion
case, then applies the allow-listed role/isDeleted update.  The id
parameter is `none` when the route param is not a valid ObjectId. -/
def updateUserById (reqUser : User) (id : Option Nat) (body : AdminUpdateBody)
    (db : DB) : Res AdminUserView × DB :=
  if !(reqUser.role == "adminSystem") then
    (Res.err 403 "Admin access required.", db)
  else
    match id with
    | none => (Res.err 400 "Invalid user ID format.", db)
    | some n =>
      if n == reqUser._id && truthyStr body.role && !(body.role == some "adminSystem") then
        (Res.err 400 "You cannot change your own role.", db)
      else
        match db.users.find? (fun u => u._id == n) with
        | none => (Res.err 404 "User not found.", db)
        | some u =>
          let updated := selectSafe (applyAdminUpdate body u)
          let newDb : DB :=
            { db with
              users := db.users.map
                (fun v => if v._id == n then applyAdminUpdate body v else v) }
          (Res.ok 200
            { id := updated._id, fullname := updated.fullname.getD ""
              username := updated.username.getD "", email := updated.email
              role := updated.role, isDeleted := updated.isDeleted
              skills := updated.skills }, newDb)

/-- deleteUserById: admin-gated; rejects a malformed id, 404 on a missing
user, refuses to delete an adminSystem user, otherwise deletes the document. -/
def deleteUserById (reqUser : User) (id : Option Nat) (db : DB) :
    Res String × DB :=
  if !(reqUser.role == "adminSystem") then
    (Res.err 403 "Admin access required.", db)
  else
    match id with
    | none => (Res.err 400 "Invalid user ID format.", db)
    | some n =>
      match db.users.find? (fun u => u._id == n) with
      | none => (Res.err 404 "User not found.", db)
      | some u =>
        if u.role == "adminSystem" then
          (Res.err 400 "Cannot delete another admin user.", db)
        else
          (Res.ok 200 "User deleted successfully.",
            { db with users := db.users.eraseP (fun v => v._id == n) })

/-- The user object returned by getUserById. -/
structure UserByIdView where
  id : Nat
  fullname : String
  username : String
  email : String
  role : String
  avatar : Option String
  skills : List String
  about : String
  experience : String
  yearOfExperience : Nat
  availability : Availability
  expectedWorkDuration : Ewd
  createdAt : Nat
deriving DecidableEq, Repr

/-- getUserById: no role check; rejects a malformed id, 404 on a missing
user, otherwise returns the user under the safe projection (no isDeleted
filter). -/
def getUserById (reqUser : User) (id : Option Nat) (db : DB) : Res UserByIdView :=
  match id with
  | none => Res.err 400 "Invalid user ID."
  | some n =>
    match db.users.find? (fun u => u._id == n) with
    | none => Res.err 404 "User not found."
    | some found =>
      let user := selectSafe found
      Res.ok 200
        { id := user._id
          fullname := user.fullname.getD ""
          username := user.username.getD ""
          email := user.email
          role := user.role
          avatar := jsOrNull user.avatar
          skills := user.skills
          about := user.about.getD ""
          experience := user.experience.getD ""
          yearOfExperience := user.yearOfExperience
          availability := user.availability.getD defaultAvailability
          expectedWorkDuration := user.expectedWorkDuration
          createdAt := user.createdAt }

/-- Render an optional string as a JSON string or null. -/
def optStrJson : Option String → JVal
  | some s => JVal.str s
  | none => JVal.null

/-- Render an availability object. -/
def availabilityJson (a : Availability) : JVal :=
  JVal.obj [("status", JVal.str a.status), ("willingToJoin", JVal.boolean a.willingToJoin)]

/-- Render an expectedWorkDuration object. -/
def ewdJson (d : Ewd) : JVal :=
  JVal.obj [("startDate", JVal.num d.startDate), ("endDate", JVal.num d.endDate)]

/-- The JSON user object of a getProfile response, with exactly the keys the
handler writes. -/
def profileViewJson (v : ProfileView) : JVal :=
  JVal.obj
    [("id", JVal.num v.id), ("fullname", JVal.str v.fullname),
     ("username", JVal.str v.username), ("email", JVal.str v.email),
     ("role", JVal.str v.role), ("avatar", optStrJson v.avatar),
     ("skills", JVal.arr (v.skills.map JVal.str)), ("about", JVal.str v.about),
     ("experience", JVal.str v.experience),
     ("yearOfExperience", JVal.num v.yearOfExperience),
     ("availability", availabilityJson v.availability),
     ("expectedWorkDuration", ewdJson v.expectedWorkDuration),
     ("hasPassword", JVal.boolean v.hasPassword),
     ("googleId", optStrJson v.googleId)]

/-- The JSON user object of an updateProfile response. -/
def updatedViewJson (v : UpdatedView) : JVal :=
  JVal.obj
    [("id", JVal.num v.id), ("fullname", JVal.str v.fullname),
     ("username", JVal.str v.username), ("email", JVal.str v.email),
     ("role", JVal.str v.role), ("avatar", optStrJson v.avatar),
     ("skills", JVal.arr (v.skills.map JVal.str)), ("about", JVal.str v.about),
     ("experience", JVal.str v.experience),
     ("yearOfExperience", JVal.num v.yearOfExperience),
     ("availability", availabilityJson v.availability),
     ("expectedWorkDuration", ewdJson v.expectedWorkDuration)]

/-- One JSON user object of a getAllUsers response. -/
def adminListViewJson (v : AdminListView) : JVal :=
  JVal.obj
    [("id", JVal.num v.id), ("fullname", JVal.str v.fullname),
     ("username", JVal.str v.username), ("email", JVal.str v.email),
     ("role", JVal.str v.role), ("skills", JVal.arr (v.skills.map JVal.str))]

/-- The JSON user object of a getUserById response. -/
def userByIdViewJson (v : UserByIdView) : JVal :=
  JVal.obj
    [("id", JVal.num v.id), ("fullname", JVal.str v.fullname),
     ("username", JVal.str v.username), ("email", JVal.str v.email),
     ("role", JVal.str v.role), ("avatar", optStrJson v.avatar),
     ("skills", JVal.arr (v.skills.map JVal.str)), ("about", JVal.str v.about),
     ("experience", JVal.str v.experience),
     ("yearOfExperience", JVal.num v.yearOfExperience),
     ("availability", availabilityJson v.availability),
     ("expectedWorkDuration", ewdJson v.expectedWorkDuration),
     ("createdAt", JVal.num v.createdAt)]

/-- The field names stripped by the safe projection. -/
def forbiddenKeys : List String := ["password", "passwordResetToken", "passwordResetExpires"]

/-! Concrete fixtures for witnesses and counterexamples. -/

/-- A plain user document with the given id, email and role. -/
def mkUser (n : Nat) (em : String) (rl : String) : User :=
  { _id := n, fullname := none, username := none, email := em, password := none
    passwordResetToken := none, passwordResetExpires := none, passwordChangedAt := none
    role := rl, avatar := none, skills := [], about := none, experience := none
    yearOfExperience := 0, availability := none
    expectedWorkDuration := { startDate := 0, endDate := 0 }, googleId := none
    isDeleted := false, deletedAt := none, createdAt := 0 }

def alice : User := mkUser 1 "alice@example.com" "memberSystem"

def bob : User := mkUser 2 "bob@example.com" "memberSystem"

def carol : User := { mkUser 3 "carol@example.com" "memberSystem" with password := some "secret" }

def adminUser : User := mkUser 9 "admin@example.com" "adminSystem"

def db0 : DB := { users := [alice, bob], skills := ["java"] }

def db1 : DB := { users := [carol], skills := ["java"] }

def dbA : DB := { users := [adminUser, alice], skills := [] }

def env0 : Env := { jwtSecret := "s3cr3t", jwtExpiresIn := "90d" }

/-! Theorems. -/

/-- C1 counterexample: getUserById is not admin-gated.  A caller whose role
is memberSystem, asking for an existing user by a valid id, receives a 200
success response with the user's data, not a 403. -/
theorem getUserById_not_admin_gated :
    alice.role ≠ "adminSystem"
    ∧ Res.statusOf (getUserById alice (some 2) db0) = 200 := by
  constructor
  · decide
  · rfl

/-- C1 (amended): getAllUsers, updateUserById and deleteUserById are
admin-gated: a caller whose role is not adminSystem receives 403, the user
collection is unchanged, and the outcome does not depend on the stored
users (no document is read out).  getUserById performs no role check and
is not covered by the gate. -/
theorem admin_gate (reqUser : User) (id : Option Nat) (body : AdminUpdateBody)
    (db db2 : DB) (h : reqUser.role ≠ "adminSystem") :
    getAllUsers reqUser db = Res.err 403 "Admin access required."
    ∧ updateUserById reqUser id body db = (Res.err 403 "Admin access required.", db)
    ∧ deleteUserById reqUser id db = (Res.err 403 "Admin access required.", db)
    ∧ getAllUsers reqUser db = getAllUsers reqUser db2
    ∧ (updateUserById reqUser id body db).1 = (updateUserById reqUser id body db2).1
    ∧ (deleteUserById reqUser id db).1 = (deleteUserById reqUser id db2).1 := by
  have hb : (reqUser.role == "adminSystem") = false := beq_eq_false_iff_ne.mpr h
  simp [getAllUsers, updateUserById, deleteUserById, hb]

/-- C1 witness: the amended gate at a concrete non-admin caller. -/
theorem admin_gate_witness :
    getAllUsers alice db0 = Res.err 403 "Admin access required." :=
  (admin_gate alice (some 2) { role := none, isDeleted := none } db0 db0 (by decide)).1

/-- C7: a validated findUsersByEmails request whose email list contains the
caller's own email is answered 400 with the self-invite message, and the
outcome does not depend on the stored users (no lookup is performed). -/
theorem findUsersByEmails_self_invite (reqUser : User) (es : List String)
    (db db2 : DB)
    (hval : ∀ e ∈ es, emailValid e = true)
    (hself : reqUser.email ∈ es) :
    findUsersByEmails reqUser (some es) db
      = FindRes.badRequest "You cannot invite yourself."
    ∧ findUsersByEmails reqUser (some es) db
      = findUsersByEmails reqUser (some es) db2 := by
  have hne : es.isEmpty = false := by
    cases es with
    | nil => cases hself
    | cons a t => rfl
  have hinv : es.filter (fun e => !emailValid e) = [] := by
    apply List.filter_eq_nil_iff.mpr
    intro a ha
    simp [hval a ha]
  have hc : es.contains reqUser.email = true := List.elem_eq_true_of_mem hself
  constructor
  · simp [findUsersByEmails, hne, hinv, hc, hself]
  · simp [findUsersByEmails, hne, hinv, hc, hself]

/-- C7 witness: the self-invite rejection at a concrete request. -/
theorem findUsersByEmails_self_invite_witness :
    findUsersByEmails alice (some ["alice@example.com"]) db0
      = FindRes.badRequest "You cannot invite yourself." :=
  (findUsersByEmails_self_invite alice ["alice@example.com"] db0 db1
    (by decide) (by decide)).1

/-- C8: deleteUserById called by an admin on an existing user whose role is
adminSystem answers 400 and leaves the store unchanged. -/
theorem deleteUserById_admin_guard (reqUser : User) (n : Nat) (db : DB) (u : User)
    (hrole : reqUser.role = "adminSystem")
    (hfind : db.users.find? (fun v => v._id == n) = some u)
    (hadmin : u.role = "adminSystem") :
    deleteUserById reqUser (some n) db
      = (Res.err 400 "Cannot delete another admin user.", db) := by
  simp [deleteUserById, hrole, hfind, hadmin]

/-- C8 witness: an admin attempting to delete the admin user. -/
theorem deleteUserById_admin_guard_witness :
    deleteUserById adminUser (some 9) dbA
      = (Res.err 400 "Cannot delete another admin user.", dbA) :=
  deleteUserById_admin_guard adminUser 9 dbA adminUser (by decide) (by decide) (by decide)

/-- C2 counterexample: changePassword tests its fields with JS truthiness,
so a present-but-empty currentPassword is answered 400 (required-fields
message), although the claim's case split mandates 401 there (the field is
present, not missing, and does not match the stored password). -/
theorem changePassword_empty_current :
    (some "" : Option String) ≠ none
    ∧ carol.password = some "secret"
    ∧ (changePassword carol
        { currentPassword := some "", newPassword := some "np1", passwordConfirm := some "np1" }
        env0 5 db1).1
      = Res.err 400 "All three fields are required." := by
  refine ⟨by decide, by decide, ?_⟩
  rfl

/-- C2 (amended): changePassword, for an existing authenticated user,
returns 400 if any of the three fields is missing or empty; otherwise 401
if currentPassword does not match the stored password; otherwise 400 if
newPassword differs from passwordConfirm (the current-password check
precedes the confirmation check); otherwise it stores the new password,
sets passwordChangedAt, and returns 200 with a freshly signed token. -/
theorem changePassword_cases (reqUser : User) (body : CPBody) (env : Env)
    (now : Nat) (db : DB) (u : User)
    (hfind : db.users.find? (fun v => v._id == reqUser._id) = some u) :
    ((truthyStr body.currentPassword = false ∨ truthyStr body.newPassword = false
        ∨ truthyStr body.passwordConfirm = false) →
      changePassword reqUser body env now db
        = (Res.err 400 "All three fields are required.", db))
    ∧ (∀ cur np pc, body = { currentPassword := some cur, newPassword := some np, passwordConfirm := some pc } →
        cur ≠ "" → np ≠ "" → pc ≠ "" →
      (correctPassword cur u.password = false →
        changePassword reqUser body env now db
          = (Res.err 401 "Your current password is incorrect.", db))
      ∧ (correctPassword cur u.password = true → np ≠ pc →
        changePassword reqUser body env now db
          = (Res.err 400 "New passwords do not match.", db))
      ∧ (correctPassword cur u.password = true → np = pc →
        changePassword reqUser body env now db
          = (Res.ok 200 (jwtSign u._id env),
            { db with users := db.users.map (fun v =>
                if v._id == reqUser._id then
                  { v with password := some np, passwordChangedAt := some now }
                else v) }))) := by
  constructor
  · intro h
    rcases h with h | h | h <;> simp [changePassword, h]
  · intro cur np pc hbody hcur hnp hpc
    subst hbody
    have hc : truthyStr (some cur) = true := by simp [truthyStr, hcur]
    have hn : truthyStr (some np) = true := by simp [truthyStr, hnp]
    have hp : truthyStr (some pc) = true := by simp [truthyStr, hpc]
    refine ⟨?_, ?_, ?_⟩
    · intro hbad
      simp [changePassword, hc, hn, hp, hfind, hbad]
    · intro hok hne
      simp [changePassword, hc, hn, hp, hfind, hok, hne]
    · intro hok heq
      subst heq
      simp [changePassword, hc, hn, hp, hfind, hok]

/-- C2 witness: a successful password change at a concrete request. -/
theorem changePassword_cases_witness :
    changePassword carol
        { currentPassword := some "secret", newPassword := some "np1", passwordConfirm := some "np1" }
        env0 5 db1
      = (Res.ok 200 (jwtSign 3 env0),
        { db1 with users := db1.users.map (fun v =>
            if v._id == carol._id then
              { v with password := some "np1", passwordChangedAt := some 5 }
            else v) }) :=
  ((changePassword_cases carol
      { currentPassword := some "secret", newPassword := some "np1", passwordConfirm := some "np1" }
      env0 5 db1 carol (by decide)).2
    "secret" "np1" "np1" rfl (by decide) (by decide) (by decide)).2.2 (by decide) rfl

/-- The tuple of user fields outside the updateProfile allow-list. -/
def nonAllowListed (u : User) :
    Option String × String × Option String × Option Nat × Option Nat
      × Option String × Bool × Option Nat × Nat × Nat :=
  (u.password, u.role, u.passwordResetToken, u.passwordResetExpires,
    u.passwordChangedAt, u.googleId, u.isDeleted, u.deletedAt, u.createdAt, u._id)

/-- updateProfile either leaves the store unchanged or rewrites exactly the
caller's document through applyProfileUpdate. -/
theorem updateProfile_db_cases (reqUser : User) (body : UpdateBody) (db : DB) :
    (updateProfile reqUser body db).2 = db
    ∨ (updateProfile reqUser body db).2
      = { db with users := db.users.map (fun v => if v._id == reqUser._id then applyProfileUpdate body v else v) } := by
  unfold updateProfile updateProfileDates updateProfileApply
  repeat' split
  all_goals first
    | (left; rfl)
    | (right; rfl)

/-- applyProfileUpdate never writes a field outside the allow-list. -/
theorem applyProfileUpdate_preserves (b : UpdateBody) (u : User) :
    nonAllowListed (applyProfileUpdate b u) = nonAllowListed u := by
  simp [nonAllowListed, applyProfileUpdate]

/-- C4 counterexample: a body containing the password key with an empty
string value is not rejected (JS truthiness lets it through) and the
update succeeds with 200, where the claim mandates 400. -/
theorem updateProfile_empty_password_not_rejected :
    ({ emptyBody with password := some "" } : UpdateBody).password = some ""
    ∧ Res.statusOf (updateProfile carol { emptyBody with password := some "" } db1).1 = 200 := by
  exact ⟨rfl, rfl⟩

/-- C4 (amended): every updateProfile body carrying a non-empty password or
role value is rejected with 400 and the store is unchanged; and on every
request, fields outside the allow-list (password, role, reset tokens,
passwordChangedAt, googleId, isDeleted, deletedAt, createdAt, the id) are
never written on any stored user. -/
theorem updateProfile_guards (reqUser : User) (body : UpdateBody) (db : DB) :
    ((truthyStr body.password = true ∨ truthyStr body.role = true) →
      updateProfile reqUser body db
        = (Res.err 400 "This route is not for password or role updates.", db))
    ∧ ((updateProfile reqUser body db).2).users.map nonAllowListed
        = db.users.map nonAllowListed := by
  constructor
  · intro h
    rcases h with h | h <;> simp [updateProfile, h]
  · rcases updateProfile_db_cases reqUser body db with h | h
    · rw [h]
    · rw [h]
      simp only [List.map_map]
      apply List.map_congr_left
      intro a _
      by_cases hc : (a._id == reqUser._id) = true
      · simp [Function.comp, hc, applyProfileUpdate_preserves]
      · simp only [Bool.not_eq_true] at hc
        simp [Function.comp, hc]

/-- C4 witness: a non-empty password in the body is rejected with 400. -/
theorem updateProfile_guards_witness :
    updateProfile carol { emptyBody with password := some "x" } db1
      = (Res.err 400 "This route is not for password or role updates.", db1) :=
  (updateProfile_guards carol { emptyBody with password := some "x" } db1).1
    (Or.inl (by decide))

/-- C5: an updateProfile skills list whose first unknown value is bad (no
Skill document carries it) is rejected with 404 referencing bad, the store
unchanged. -/
theorem updateProfile_unknown_skill (reqUser : User) (body : UpdateBody) (db : DB)
    (vals : List String) (bad : String)
    (hpw : truthyStr body.password = false)
    (hrole : truthyStr body.role = false)
    (hsk : body.skills = some (SkillsField.values vals))
    (hbad : vals.find? (fun v => !(db.skills.contains v)) = some bad) :
    updateProfile reqUser body db = (Res.err 404 ("Skill not found: " ++ bad), db)
    ∧ bad ∈ vals
    ∧ db.skills.contains bad = false := by
  refine ⟨?_, List.mem_of_find?_eq_some hbad, ?_⟩
  · have hbad2 : vals.find? (fun v => !decide (v ∈ db.skills)) = some bad := by
      simpa using hbad
    simp [updateProfile, hpw, hrole, hsk, hbad2]
  · have h := List.find?_some hbad
    simpa using h

/-- C5 witness: the unknown skill value zz is rejected with 404. -/
theorem updateProfile_unknown_skill_witness :
    updateProfile carol { emptyBody with skills := some (SkillsField.values ["zz"]) } db1
      = (Res.err 404 ("Skill not found: " ++ "zz"), db1) :=
  (updateProfile_unknown_skill carol
    { emptyBody with skills := some (SkillsField.values ["zz"]) } db1
    ["zz"] "zz" (by decide) (by decide) rfl (by decide)).1

/-- C6: with the earlier guards passing, an expectedWorkDuration whose
startDate or endDate fails to parse is rejected 400 (invalid date); a
parsed startDate strictly after endDate is rejected 400 (ordering); and a
parsed startDate before or equal to endDate passes the validation, the
update answers 200, and the caller's stored duration satisfies
startDate less than or equal to endDate. -/
theorem updateProfile_duration_validation (reqUser : User) (body : UpdateBody)
    (db : DB) (u : User) (ewd : EwdBody)
    (hpw : truthyStr body.password = false)
    (hrole : truthyStr body.role = false)
    (hsk : body.skills = none)
    (hfind : db.users.find? (fun v => v._id == reqUser._id) = some u)
    (hewd : body.expectedWorkDuration = some ewd) :
    ((ewd.startDate = none ∨ ewd.endDate = none) →
      updateProfile reqUser body db = (Res.err 400 "Invalid start or end date.", db))
    ∧ (∀ s e : Int, ewd.startDate = some s → ewd.endDate = some e → s > e →
      updateProfile reqUser body db
        = (Res.err 400 "Start date must be before or equal to end date.", db))
    ∧ (∀ s e : Int, ewd.startDate = some s → ewd.endDate = some e → s ≤ e →
      Res.statusOf (updateProfile reqUser body db).1 = 200
      ∧ ∀ v ∈ ((updateProfile reqUser body db).2).users,
          v._id = reqUser._id →
            v.expectedWorkDuration = { startDate := s, endDate := e }
            ∧ v.expectedWorkDuration.startDate ≤ v.expectedWorkDuration.endDate) := by
  refine ⟨?_, ?_, ?_⟩
  · intro h
    rcases h with h | h
    · simp [updateProfile, updateProfileDates, hpw, hrole, hsk, hewd, h]
    · cases hs : ewd.startDate with
      | none => simp [updateProfile, updateProfileDates, hpw, hrole, hsk, hewd, hs]
      | some s => simp [updateProfile, updateProfileDates, hpw, hrole, hsk, hewd, hs, h]
  · intro s e hs he hgt
    simp [updateProfile, updateProfileDates, hpw, hrole, hsk, hewd, hs, he, hgt]
  · intro s e hs he hle
    have hngt : ¬ (s > e) := not_lt.mpr hle
    constructor
    · simp [updateProfile, updateProfileDates, updateProfileApply, hpw, hrole,
        hsk, hewd, hs, he, hngt, hfind, Res.statusOf]
    · intro v hv hvid
      have hdb : ((updateProfile reqUser body db).2).users
          = db.users.map (fun w => if w._id == reqUser._id then applyProfileUpdate body w else w) := by
        simp [updateProfile, updateProfileDates, updateProfileApply, hpw, hrole,
          hsk, hewd, hs, he, hngt, hfind]
      rw [hdb] at hv
      rcases List.mem_map.mp hv with ⟨w, hw, hweq⟩
      by_cases hwid : (w._id == reqUser._id) = true
      · rw [if_pos hwid] at hweq
        have hv2 : v.expectedWorkDuration = { startDate := s, endDate := e } := by
          rw [← hweq]
          simp [applyProfileUpdate, hewd, hs, he]
        refine ⟨hv2, ?_⟩
        rw [hv2]
        exact hle
      · rw [if_neg hwid] at hweq
        exfalso
        apply hwid
        rw [hweq, hvid]
        exact beq_self_eq_true reqUser._id

/-- C6 witness: startDate 1 before endDate 2 passes the validation with 200. -/
theorem updateProfile_duration_validation_witness :
    Res.statusOf (updateProfile carol
      { emptyBody with expectedWorkDuration := some { startDate := some 1, endDate := some 2 } }
      db1).1 = 200 :=
  ((updateProfile_duration_validation carol
      { emptyBody with expectedWorkDuration := some { startDate := some 1, endDate := some 2 } }
      db1 carol { startDate := some 1, endDate := some 2 }
      (by decide) (by decide) rfl (by decide) rfl).2.2
    1 2 rfl rfl (by decide)).1

/-- C3: a validated findUsersByEmails request partitions its emails: each
input email is among the found users' emails exactly when a non-deleted
user carries it (and is then absent from notFoundEmails), and lands in
notFoundEmails exactly otherwise; no email is in both sets. -/
theorem findUsersByEmails_partition (reqUser : User) (es : List String) (db : DB)
    (hval : ∀ e ∈ es, emailValid e = true)
    (hne : es ≠ [])
    (hself : reqUser.email ∉ es) :
    ∃ d, findUsersByEmails reqUser (some es) db = FindRes.ok d
      ∧ ∀ e ∈ es,
        ((∃ u ∈ db.users, u.isDeleted = false ∧ u.email = e) →
          e ∈ d.foundUsers.map FoundUser.email ∧ e ∉ d.notFoundEmails)
        ∧ ((¬ ∃ u ∈ db.users, u.isDeleted = false ∧ u.email = e) →
          e ∈ d.notFoundEmails ∧ e ∉ d.foundUsers.map FoundUser.email) := by
  have hne2 : es.isEmpty = false := by
    cases es with
    | nil => exact absurd rfl hne
    | cons a t => rfl
  have hinv : es.filter (fun e => !emailValid e) = [] := by
    apply List.filter_eq_nil_iff.mpr
    intro a ha
    simp [hval a ha]
  have hc : es.contains reqUser.email = false := by
    simpa using hself
  have hres : findUsersByEmails reqUser (some es) db
      = FindRes.ok
          { foundUsers := (db.users.filter (fun u => es.contains u.email && !u.isDeleted)).map (fun u => { userId := u._id, email := u.email, username := u.username, fullname := u.fullname.getD "" })
            notFoundEmails := es.filter (fun e2 => !((db.users.filter (fun u => es.contains u.email && !u.isDeleted)).map (fun u => u.email)).contains e2) } := by
    simp [findUsersByEmails, hne2, hinv, hc, hself]
  refine ⟨_, hres, ?_⟩
  intro e he
  have hiff : (∃ u ∈ db.users, u.isDeleted = false ∧ u.email = e)
      ↔ e ∈ (db.users.filter (fun u => es.contains u.email && !u.isDeleted)).map (fun u => u.email) := by
    constructor
    · rintro ⟨u, hu, hdel, hem⟩
      refine List.mem_map.mpr ⟨u, List.mem_filter.mpr ⟨hu, ?_⟩, hem⟩
      subst hem
      simp [he, hdel]
    · intro hmem
      rcases List.mem_map.mp hmem with ⟨u, hu2, hem⟩
      rcases List.mem_filter.mp hu2 with ⟨hu, hp⟩
      simp only [Bool.and_eq_true, Bool.not_eq_true'] at hp
      exact ⟨u, hu, hp.2, hem⟩
  constructor
  · intro hex
    have hmem := hiff.mp hex
    constructor
    · simpa [List.map_map, Function.comp] using hmem
    · intro hbad
      rcases List.mem_filter.mp hbad with ⟨-, hnc⟩
      simp only [Bool.not_eq_true'] at hnc
      have h2 : ((db.users.filter (fun u => es.contains u.email && !u.isDeleted)).map (fun u => u.email)).contains e = true :=
        List.elem_eq_true_of_mem hmem
      rw [h2] at hnc
      exact absurd hnc (by decide)
  · intro hnex
    have hnmem : e ∉ (db.users.filter (fun u => es.contains u.email && !u.isDeleted)).map (fun u => u.email) :=
      fun hm => hnex (hiff.mpr hm)
    constructor
    · refine List.mem_filter.mpr ⟨he, ?_⟩
      simpa using hnmem
    · intro hbad
      apply hnmem
      simpa [List.map_map, Function.comp] using hbad

/-- C3 witness: bob is found, ghost is not, at a concrete request of admin. -/
theorem findUsersByEmails_partition_witness :
    ∃ d, findUsersByEmails adminUser (some ["bob@example.com", "ghost@example.com"]) db0 = FindRes.ok d
      ∧ ∀ e ∈ ["bob@example.com", "ghost@example.com"],
        ((∃ u ∈ db0.users, u.isDeleted = false ∧ u.email = e) →
          e ∈ d.foundUsers.map FoundUser.email ∧ e ∉ d.notFoundEmails)
        ∧ ((¬ ∃ u ∈ db0.users, u.isDeleted = false ∧ u.email = e) →
          e ∈ d.notFoundEmails ∧ e ∉ d.foundUsers.map FoundUser.email) :=
  findUsersByEmails_partition adminUser ["bob@example.com", "ghost@example.com"] db0
    (by decide) (by decide) (by decide)

/-- C9: no success response of getProfile, updateProfile, getAllUsers or
getUserById carries the password, passwordResetToken or
passwordResetExpires key in its rendered user object, whatever the stored
state. -/
theorem success_responses_sanitized :
    (∀ (reqUser : User) (db : DB) (c : Nat) (v : ProfileView),
      getProfile reqUser db = Res.ok c v →
      ∀ k ∈ forbiddenKeys, k ∉ objKeys (profileViewJson v))
    ∧ (∀ (reqUser : User) (body : UpdateBody) (db : DB) (c : Nat) (v : UpdatedView),
      (updateProfile reqUser body db).1 = Res.ok c v →
      ∀ k ∈ forbiddenKeys, k ∉ objKeys (updatedViewJson v))
    ∧ (∀ (reqUser : User) (db : DB) (c : Nat) (vs : List AdminListView),
      getAllUsers reqUser db = Res.ok c vs →
      ∀ v ∈ vs, ∀ k ∈ forbiddenKeys, k ∉ objKeys (adminListViewJson v))
    ∧ (∀ (reqUser : User) (id : Option Nat) (db : DB) (c : Nat) (v : UserByIdView),
      getUserById reqUser id db = Res.ok c v →
      ∀ k ∈ forbiddenKeys, k ∉ objKeys (userByIdViewJson v)) := by
  refine ⟨?_, ?_, ?_, ?_⟩
  · intro reqUser db c v _ k hk
    simp [forbiddenKeys] at hk
    rcases hk with h | h | h <;> subst h <;> simp [objKeys, profileViewJson]
  · intro reqUser body db c v _ k hk
    simp [forbiddenKeys] at hk
    rcases hk with h | h | h <;> subst h <;> simp [objKeys, updatedViewJson]
  · intro reqUser db c vs _ v _ k hk
    simp [forbiddenKeys] at hk
    rcases hk with h | h | h <;> subst h <;> simp [objKeys, adminListViewJson]
  · intro reqUser id db c v _ k hk
    simp [forbiddenKeys] at hk
    rcases hk with h | h | h <;> subst h <;> simp [objKeys, userByIdViewJson]

/-- C9 witness: the password key is absent from the rendered profile of a
concrete successful getProfile. -/
theorem success_responses_sanitized_witness :
    "password" ∉ objKeys (profileViewJson
      { id := 1, fullname := "", username := "", email := "alice@example.com"
        role := "memberSystem", avatar := none, skills := [], about := ""
        experience := "", yearOfExperience := 0, availability := defaultAvailability
        expectedWorkDuration := { startDate := 0, endDate := 0 }
        hasPassword := false, googleId := none }) :=
  success_responses_sanitized.1 alice db0 200
    { id := 1, fullname := "", username := "", email := "alice@example.com"
      role := "memberSystem", avatar := none, skills := [], about := ""
      experience := "", yearOfExperience := 0, availability := defaultAvailability
      expectedWorkDuration := { startDate := 0, endDate := 0 }
      hasPassword := false, googleId := none }
    (by decide) "password" (by decide)

/-- C10: after deactivateMe soft-deletes a user (204), that user's id is
absent from every getAllUsers listing, their email lands in
findUsersByEmails notFoundEmails (and not among the found users' emails,
emails being unique), yet getUserById on their id still answers 200, since
it applies no isDeleted filter. -/
theorem soft_delete_visibility (db : DB) (u : User) (now : Nat)
    (admin caller : User) (es : List String)
    (hu : u ∈ db.users)
    (huniq : ∀ v ∈ db.users, v.email = u.email → v._id = u._id)
    (hadmin : admin.role = "adminSystem")
    (hval : ∀ e ∈ es, emailValid e = true)
    (hmem : u.email ∈ es)
    (hcaller : caller.email ∉ es) :
    (deactivateMe u now db).1 = Res.ok 204 ()
    ∧ (∀ vs, getAllUsers admin (deactivateMe u now db).2 = Res.ok 200 vs →
        ∀ v ∈ vs, v.id ≠ u._id)
    ∧ (∀ d, findUsersByEmails caller (some es) (deactivateMe u now db).2 = FindRes.ok d →
        u.email ∈ d.notFoundEmails ∧ u.email ∉ d.foundUsers.map FoundUser.email)
    ∧ (∃ v, getUserById caller (some u._id) (deactivateMe u now db).2 = Res.ok 200 v) := by
  have hdb2 : (deactivateMe u now db).2.users
      = db.users.map (fun v => if v._id == u._id then { v with isDeleted := true, deletedAt := some now } else v) := rfl
  have hdel : ∀ w ∈ (deactivateMe u now db).2.users, w.email = u.email → w.isDeleted = true := by
    intro w hw hwe
    rw [hdb2] at hw
    rcases List.mem_map.mp hw with ⟨x, hx, hxe⟩
    by_cases hxid : (x._id == u._id) = true
    · rw [if_pos hxid] at hxe
      rw [← hxe]
    · rw [if_neg hxid] at hxe
      subst hxe
      exact absurd (beq_iff_eq.mpr (huniq x hx hwe)) hxid
  have hdelid : ∀ w ∈ (deactivateMe u now db).2.users, w._id = u._id → w.isDeleted = true := by
    intro w hw hwid
    rw [hdb2] at hw
    rcases List.mem_map.mp hw with ⟨x, hx, hxe⟩
    by_cases hxid : (x._id == u._id) = true
    · rw [if_pos hxid] at hxe
      rw [← hxe]
    · rw [if_neg hxid] at hxe
      subst hxe
      exact absurd (beq_iff_eq.mpr hwid) hxid
  refine ⟨rfl, ?_, ?_, ?_⟩
  · intro vs hvs v hv
    have hrole : (admin.role == "adminSystem") = true := beq_iff_eq.mpr hadmin
    have hgot : getAllUsers admin (deactivateMe u now db).2
        = Res.ok 200 ((((deactivateMe u now db).2.users.filter (fun w => !w.isDeleted)).map selectSafe).map (fun w => { id := w._id, fullname := w.fullname.getD "", username := w.username.getD "", email := w.email, role := w.role, skills := w.skills })) := by
      simp [getAllUsers, hrole]
    rw [hgot] at hvs
    injection hvs with hcode hlist
    subst hlist
    rcases List.mem_map.mp hv with ⟨w1, hw1, hveq⟩
    rcases List.mem_map.mp hw1 with ⟨w, hwmem, hws⟩
    rcases List.mem_filter.mp hwmem with ⟨hwdb, hwnd⟩
    intro heq
    have hwid : w._id = u._id := by
      rw [← hveq, ← hws] at heq
      simpa [selectSafe] using heq
    have hwdel := hdelid w hwdb hwid
    rw [hwdel] at hwnd
    exact absurd hwnd (by decide)
  · intro d hd
    have hne2 : es.isEmpty = false := by
      cases es with
      | nil => cases hmem
      | cons a t => rfl
    have hinv : es.filter (fun e => !emailValid e) = [] := by
      apply List.filter_eq_nil_iff.mpr
      intro a ha
      simp [hval a ha]
    have hcc : es.contains caller.email = false := by simpa using hcaller
    have hres2 : findUsersByEmails caller (some es) (deactivateMe u now db).2
        = FindRes.ok
            { foundUsers := ((deactivateMe u now db).2.users.filter (fun w => es.contains w.email && !w.isDeleted)).map (fun w => { userId := w._id, email := w.email, username := w.username, fullname := w.fullname.getD "" })
              notFoundEmails := es.filter (fun e2 => !(((deactivateMe u now db).2.users.filter (fun w => es.contains w.email && !w.isDeleted)).map (fun w => w.email)).contains e2) } := by
      simp [findUsersByEmails, hne2, hinv, hcc, hcaller]
    rw [hres2] at hd
    injection hd with hd
    subst hd
    have hnotin : u.email ∉ ((deactivateMe u now db).2.users.filter (fun w => es.contains w.email && !w.isDeleted)).map (fun w => w.email) := by
      intro hbad
      rcases List.mem_map.mp hbad with ⟨w, hwf, hwe⟩
      rcases List.mem_filter.mp hwf with ⟨hwdb, hp⟩
      have hwdel := hdel w hwdb hwe
      simp [hwdel] at hp
    constructor
    · refine List.mem_filter.mpr ⟨hmem, ?_⟩
      simpa using hnotin
    · simpa [List.map_map, Function.comp] using hnotin
  · have hfu : (fun v => if v._id == u._id then { v with isDeleted := true, deletedAt := some now } else v) u
        ∈ (deactivateMe u now db).2.users := by
      rw [hdb2]
      exact List.mem_map_of_mem _ hu
    have hid : ((fun v => if v._id == u._id then { v with isDeleted := true, deletedAt := some now } else v) u)._id = u._id := by
      by_cases h : (u._id == u._id) = true
      · simp only [if_pos h]
      · simp only [if_neg h]
    have hsome : ((deactivateMe u now db).2.users.find? (fun a => a._id == u._id)).isSome := by
      rw [List.find?_isSome]
      exact ⟨_, hfu, beq_iff_eq.mpr hid⟩
    rcases Option.isSome_iff_exists.mp hsome with ⟨w, hw⟩
    refine ⟨{ id := (selectSafe w)._id, fullname := (selectSafe w).fullname.getD ""
              username := (selectSafe w).username.getD "", email := (selectSafe w).email
              role := (selectSafe w).role, avatar := jsOrNull (selectSafe w).avatar
              skills := (selectSafe w).skills, about := (selectSafe w).about.getD ""
              experience := (selectSafe w).experience.getD ""
              yearOfExperience := (selectSafe w).yearOfExperience
              availability := (selectSafe w).availability.getD defaultAvailability
              expectedWorkDuration := (selectSafe w).expectedWorkDuration
              createdAt := (selectSafe w).createdAt }, ?_⟩
    simp only [getUserById, hw]

/-- C10 witness: deactivating alice answers 204 at a concrete store. -/
theorem soft_delete_visibility_witness :
    (deactivateMe alice 7 db0).1 = Res.ok 204 () :=
  (soft_delete_visibility db0 alice 7 adminUser bob ["alice@example.com"]
    (by decide) (by decide) (by decide) (by decide) (by decide) (by decide)).1

end UserController
